import Mathlib

/-!
Shallow embedding of `src/urbanApp_v1.py` (single-session perceptual survey app).
Time values are modelled as rationals (Python `time.time()` floats), Python `int()`
truncation toward zero as `pyTrunc`, and the Google-Sheets append as an oracle
giving the outcome of each attempt. `random.shuffle` is modelled by quantifying
over an arbitrary permutation of the catalog (its postcondition).
-/

namespace UrbanApp

/-- Config constant `MIN_LISTEN_SECONDS = 3` (line 25 of the source). -/
def MIN_LISTEN_SECONDS : ℚ := 3

/-- One entry of the `STIMULI` catalog: `{"id": ..., "image": ..., "audio": ...}`. -/
structure Stimulus where
  id : String
  image : String
  audio : String
deriving DecidableEq, Repr

/-- The `STIMULI` list, verbatim from lines 18-22 of the source. -/
def STIMULI : List Stimulus :=
  [⟨"S01", "i_qeop_3.jpg", "a_3_garden.wav"⟩,
   ⟨"S02", "i_qeop_2.jpg", "a_2_spring music.wav"⟩,
   ⟨"S03", "i_qeop_1.jpg", "a_1_east village.wav"⟩]

/-- `TRIALS_PER_PARTICIPANT = min(3, len(STIMULI))` (line 24). -/
def TRIALS_PER_PARTICIPANT : Nat := min 3 STIMULI.length

/-- Outcome of one `ws.append_row(row_values)` call: success, an `APIError`,
or any other exception. -/
inductive AppendOutcome
  | success
  | apiError
  | otherError
deriving DecidableEq, Repr

/-- Observable result of `append_row_with_retry`: the returned boolean, the number
of `append_row` calls made, and the sequence of `time.sleep` durations (seconds). -/
structure RetryResult where
  ok : Bool
  attempts : Nat
  sleeps : List ℚ
deriving DecidableEq, Repr

/-- The `for i in range(max_retries)` loop body of `append_row_with_retry`
(lines 57-66): attempt `i` with `fuel` loop iterations remaining. On success
return `True` at once; on `APIError` sleep `2 ** i` then continue; on any other
exception warn, sleep `1`, then continue. When the loop ends, return `False`. -/
def retryGo (outcomes : Nat → AppendOutcome) : Nat → Nat → RetryResult
  | _, 0 => ⟨false, 0, []⟩
  | i, fuel + 1 =>
    match outcomes i with
    | .success => ⟨true, 1, []⟩
    | .apiError =>
        let r := retryGo outcomes (i + 1) fuel
        ⟨r.ok, r.attempts + 1, ((2 : ℚ) ^ i) :: r.sleeps⟩
    | .otherError =>
        let r := retryGo outcomes (i + 1) fuel
        ⟨r.ok, r.attempts + 1, (1 : ℚ) :: r.sleeps⟩

/-- `append_row_with_retry(ws, row_values, max_retries=1)` (lines 56-67); the
sheet and row are abstracted away, `outcomes` gives each attempt's result.
The module's only call site (line 217) uses the default `max_retries = 1`. -/
def append_row_with_retry (outcomes : Nat → AppendOutcome) (max_retries : Nat) :
    RetryResult :=
  retryGo outcomes 0 max_retries

/-- Lines 137-138: `if st.session_state.trial_start_time is None:
st.session_state.trial_start_time = time.time()` — the resulting start time. -/
def gateStart (trial_start_time : Option ℚ) (now : ℚ) : ℚ :=
  match trial_start_time with
  | none => now
  | some t => t

/-- Line 139: `elapsed = time.time() - st.session_state.trial_start_time`. -/
def elapsed (now start : ℚ) : ℚ := now - start

/-- Line 140: `ready = elapsed >= MIN_LISTEN_SECONDS`. -/
def ready (now start : ℚ) : Bool := decide (MIN_LISTEN_SECONDS ≤ elapsed now start)

/-- Python `int()`: truncation toward zero. -/
def pyTrunc (q : ℚ) : ℤ := if 0 ≤ q then ⌊q⌋ else ⌈q⌉

/-- Lines 184-185: `form_unlocked_time` is set to
`trial_start_time + MIN_LISTEN_SECONDS` if it is `None`, else kept. -/
def unlockTime (start : ℚ) (form_unlocked_time : Option ℚ) : ℚ :=
  form_unlocked_time.getD (start + MIN_LISTEN_SECONDS)

/-- Line 186: `rt_ms = int((time.time() - st.session_state.form_unlocked_time) * 1000)`. -/
def rt_ms (T unlock : ℚ) : ℤ := pyTrunc ((T - unlock) * 1000)

/-- One cell of the appended row: Python strings stay strings, Python ints and
floats are both numbers (Python compares them numerically). -/
inductive Cell
  | str (s : String)
  | num (q : ℚ)
deriving DecidableEq, Repr

/-- `all_sound_types` (lines 157-160), verbatim. -/
def all_sound_types : List String :=
  ["Birdsong", "Wind", "Water", "Human voice", "Car", "Bicycle",
   "Airplane/Helicopter", "Construction noise", "Music", "Other"]

/-- Inputs the UI widgets hand to the submit handler: demographics, the three
primary sliders, the multiselect `sound_types`, and the per-sound satisfaction
sliders (`slider s` is the value of the slider rendered for sound `s`).
`sa_match` embeds the variable called `match` in the source (a Lean keyword). -/
structure RowInputs where
  timestamp : String
  participant_id : String
  stim : Stimulus
  age : ℤ
  gender : String
  comfort : ℚ
  pleasantness : ℚ
  sa_match : ℚ
  sound_types : List String
  slider : String → ℚ

/-- Lines 167-178: `ratings = {}` then `for sound in sound_types:
ratings[sound] = st.slider(...)` — a dict whose keys are exactly `sound_types`. -/
def ratingsDict (sound_types : List String) (slider : String → ℚ) :
    String → Option ℚ :=
  fun s => if s ∈ sound_types then some (slider s) else none

/-- Lines 188-190: `heard = {s: 9 for s in all_sound_types}` then
`for s in sound_types: heard[s] = ratings.get(s, 9)`. -/
def heard (inp : RowInputs) (s : String) : ℚ :=
  if s ∈ inp.sound_types then (ratingsDict inp.sound_types inp.slider s).getD 9
  else 9

/-- The `row` list assembled at lines 192-215, cell by cell in source order. -/
def buildRow (inp : RowInputs) (i : ℕ) (rt : ℤ) : List Cell :=
  [Cell.str inp.timestamp,
   Cell.str inp.participant_id,
   Cell.num (i : ℚ),
   Cell.str inp.stim.id,
   Cell.str inp.stim.image,
   Cell.str inp.stim.audio,
   Cell.num (inp.age : ℚ),
   Cell.str inp.gender,
   Cell.num inp.comfort,
   Cell.num inp.pleasantness,
   Cell.num inp.sa_match,
   Cell.num (heard inp "Birdsong"),
   Cell.num (heard inp "Wind"),
   Cell.num (heard inp "Water"),
   Cell.num (heard inp "Human voice"),
   Cell.num (heard inp "Car"),
   Cell.num (heard inp "Bicycle"),
   Cell.num (heard inp "Airplane/Helicopter"),
   Cell.num (heard inp "Construction noise"),
   Cell.num (heard inp "Music"),
   Cell.num (heard inp "Other"),
   Cell.num (rt : ℚ)]

/-- The session fields the trial block reads and writes:
`trial_idx`, `trial_start_time`, `form_unlocked_time`. -/
structure SessionState where
  trial_idx : ℕ
  trial_start_time : Option ℚ
  form_unlocked_time : Option ℚ
deriving DecidableEq, Repr

/-- Which page the script renders: consent/demographics (line 94), the trial
block (line 124), or the completion page (line 238). -/
inductive Phase
  | awaitingConsent
  | inTrial (i : ℕ)
  | complete
deriving DecidableEq, Repr

/-- Page selection from the session flags: the trial block runs iff
`demographics_done and trial_idx < len(trial_order)`, the completion page iff
`demographics_done and trial_idx >= len(trial_order)`. -/
def phase (demographics_done : Bool) (trial_idx len : ℕ) : Phase :=
  if demographics_done = false then Phase.awaitingConsent
  else if trial_idx < len then Phase.inTrial trial_idx
  else Phase.complete

/-- Observable effect of one run of the trial block: the row handed to
`append_row_with_retry` (if any), its boolean result (if any), and the session
state afterwards. -/
structure TrialBlockResult where
  appendedRow : Option (List Cell)
  appendOk : Option Bool
  state : SessionState
deriving Repr

/-- One run of the trial block, lines 137-235. `nowRender` is `time.time()` at
lines 138-139, `nowSubmit` at line 186. `ready` (line 140) feeds only the
submit button's `disabled` flag in the source; the handler itself (line 183)
tests only `submitted`, so `ready` is not consulted here — exactly as in the
code. After the append the state update (lines 232-234) runs unconditionally,
whether or not the append returned `True`. -/
def trialBlock (s : SessionState) (nowRender nowSubmit : ℚ) (submitted : Bool)
    (inp : RowInputs) (outcomes : Nat → AppendOutcome) : TrialBlockResult :=
  let start := gateStart s.trial_start_time nowRender
  let s1 : SessionState := { s with trial_start_time := some start }
  if submitted then
    let unlock := unlockTime start s1.form_unlocked_time
    let rt := rt_ms nowSubmit unlock
    let row := buildRow inp s1.trial_idx rt
    let res := append_row_with_retry outcomes 1
    { appendedRow := some row, appendOk := some res.ok,
      state := { trial_idx := s1.trial_idx + 1, trial_start_time := none,
                 form_unlocked_time := none } }
  else
    { appendedRow := none, appendOk := none, state := s1 }

/-- The trial-order construction of `init_state` (lines 75-78):
`order = STIMULI[:]; random.shuffle(order); trial_order = order[:count]`.
The shuffle's output is the `shuffled` argument; that it is a permutation of
the catalog is the shuffle's postcondition, taken as a hypothesis in theorems. -/
def build_order (shuffled : List Stimulus) (count : ℕ) : List Stimulus :=
  List.take count shuffled

/-- A concrete set of submit-handler inputs used as evaluation witness:
"Wind" selected, every satisfaction slider at 0.7. -/
def inp0 : RowInputs :=
  ⟨"2025-01-01 00:00:00", "P_123456", ⟨"S01", "i_qeop_3.jpg", "a_3_garden.wav"⟩,
   25, "Female", 1/2, 1/2, 1/2, ["Wind"], fun _ => 7/10⟩

/-- C7: `ready` is false exactly before `start + MIN_LISTEN_SECONDS` and true
at/after it (the threshold itself counts as ready), and `gateStart` keeps an
already-set start time, so re-renders do not restart the gate. -/
theorem c7_gate_boundary_and_idempotent_start :
    (∀ now start : ℚ,
      (ready now start = true ↔ start + MIN_LISTEN_SECONDS ≤ now)
      ∧ (ready now start = false ↔ now < start + MIN_LISTEN_SECONDS))
    ∧ (∀ t now : ℚ, gateStart (some t) now = t)
    ∧ (∀ now : ℚ, gateStart none now = now) := by
  refine ⟨fun now start => ⟨?_, ?_⟩, fun t now => rfl, fun now => rfl⟩
  · rw [ready, decide_eq_true_iff]
    unfold elapsed
    constructor <;> intro h <;> linarith
  · rw [ready, decide_eq_false_iff_not]
    unfold elapsed
    constructor <;> intro h <;>
      [linarith [lt_of_not_le h]; exact not_le.mpr (by linarith)]

/-- C6: when `form_unlocked_time` is unset at submission, the reaction-time
origin becomes `start + MIN_LISTEN_SECONDS`, and for a submission at time
`T ≥ unlock` the recorded `rt_ms` is the millisecond difference `(T - unlock) * 1000`
truncated to an integer — in particular it is never negative. -/
theorem c6_reaction_time (start T : ℚ) (h : start + MIN_LISTEN_SECONDS ≤ T) :
    unlockTime start none = start + MIN_LISTEN_SECONDS
    ∧ 0 ≤ rt_ms T (unlockTime start none)
    ∧ ((rt_ms T (unlockTime start none) : ℚ)
        ≤ (T - (start + MIN_LISTEN_SECONDS)) * 1000)
    ∧ (T - (start + MIN_LISTEN_SECONDS)) * 1000 - 1
        < (rt_ms T (unlockTime start none) : ℚ) := by
  have hu : unlockTime start none = start + MIN_LISTEN_SECONDS := rfl
  rw [hu]
  have hnn : 0 ≤ (T - (start + MIN_LISTEN_SECONDS)) * 1000 := by
    have : 0 ≤ T - (start + MIN_LISTEN_SECONDS) := by linarith
    positivity
  have hrt : rt_ms T (start + MIN_LISTEN_SECONDS)
      = ⌊(T - (start + MIN_LISTEN_SECONDS)) * 1000⌋ := by
    rw [rt_ms, pyTrunc, if_pos hnn]
  refine ⟨rfl, ?_, ?_, ?_⟩
  · rw [hrt]
    exact Int.floor_nonneg.mpr hnn
  · rw [hrt]
    exact Int.floor_le _
  · rw [hrt]
    exact Int.sub_one_lt_floor _

/-- Closed witness for `c6_reaction_time` at start = 0, T = 4. -/
theorem c6_reaction_time_witness :
    ((0 : ℚ) + MIN_LISTEN_SECONDS ≤ 4)
    ∧ (unlockTime 0 none = (0 : ℚ) + MIN_LISTEN_SECONDS
        ∧ 0 ≤ rt_ms 4 (unlockTime 0 none)
        ∧ ((rt_ms 4 (unlockTime 0 none) : ℚ)
            ≤ ((4 : ℚ) - (0 + MIN_LISTEN_SECONDS)) * 1000)
        ∧ ((4 : ℚ) - (0 + MIN_LISTEN_SECONDS)) * 1000 - 1
            < (rt_ms 4 (unlockTime 0 none) : ℚ)) :=
  ⟨by norm_num [MIN_LISTEN_SECONDS],
   c6_reaction_time 0 4 (by norm_num [MIN_LISTEN_SECONDS])⟩

/-- C5: a submission whose append reports success advances `trial_idx` by
exactly 1, resets both timing fields to unset, and the next render shows
trial `i + 1` when `i + 1 < len(trial_order)` and the completion page when
`i + 1 = len(trial_order)`. -/
theorem c5_success_advances (s : SessionState) (nowR nowS : ℚ) (inp : RowInputs)
    (outcomes : Nat → AppendOutcome) (len : ℕ)
    (hi : s.trial_idx < len)
    (hok : (trialBlock s nowR nowS true inp outcomes).appendOk = some true) :
    (trialBlock s nowR nowS true inp outcomes).state.trial_idx = s.trial_idx + 1
    ∧ (trialBlock s nowR nowS true inp outcomes).state.trial_start_time = none
    ∧ (trialBlock s nowR nowS true inp outcomes).state.form_unlocked_time = none
    ∧ phase true (trialBlock s nowR nowS true inp outcomes).state.trial_idx len
        = (if s.trial_idx + 1 < len then Phase.inTrial (s.trial_idx + 1)
           else Phase.complete)
    ∧ (s.trial_idx + 1 = len →
        phase true (trialBlock s nowR nowS true inp outcomes).state.trial_idx len
          = Phase.complete) := by
  refine ⟨rfl, rfl, rfl, ?_, ?_⟩
  · show phase true (s.trial_idx + 1) len = _
    rw [phase]
    simp only [Bool.true_eq_false, if_false]
  · intro hlen
    show phase true (s.trial_idx + 1) len = _
    rw [phase]
    simp only [Bool.true_eq_false, if_false]
    rw [if_neg (by omega)]

/-- Closed witness for `c5_success_advances`: trial 0 of 3, gate started at 0,
submitted at time 4, every append attempt succeeding. -/
theorem c5_success_advances_witness :
    ((0 : ℕ) < 3)
    ∧ (trialBlock ⟨0, some 0, none⟩ 0 4 true inp0
        (fun _ => AppendOutcome.success)).appendOk = some true
    ∧ (trialBlock ⟨0, some 0, none⟩ 0 4 true inp0
        (fun _ => AppendOutcome.success)).state.trial_idx = 0 + 1
    ∧ phase true (trialBlock ⟨0, some 0, none⟩ 0 4 true inp0
        (fun _ => AppendOutcome.success)).state.trial_idx 3
        = (if 0 + 1 < 3 then Phase.inTrial (0 + 1) else Phase.complete) := by
  have h := c5_success_advances ⟨0, some 0, none⟩ 0 4 inp0
    (fun _ => AppendOutcome.success) 3 (by decide) rfl
  exact ⟨by decide, rfl, h.1, h.2.2.2.1⟩

/-- C1: evaluation of the code at the failing input — trial 0, gate started,
submission whose every append attempt raises `APIError` (so
`append_row_with_retry` returns `False`): the code still increments
`trial_idx` to 1 and resets both timing fields to `None`, contrary to the
claimed stay-in-trial-for-retry behavior. -/
theorem c1_failed_append_still_advances :
    (trialBlock ⟨0, some 0, none⟩ 0 4 true inp0
      (fun _ => AppendOutcome.apiError)).appendOk = some false
    ∧ (trialBlock ⟨0, some 0, none⟩ 0 4 true inp0
        (fun _ => AppendOutcome.apiError)).state.trial_idx = 1
    ∧ (trialBlock ⟨0, some 0, none⟩ 0 4 true inp0
        (fun _ => AppendOutcome.apiError)).state.trial_start_time = none
    ∧ (trialBlock ⟨0, some 0, none⟩ 0 4 true inp0
        (fun _ => AppendOutcome.apiError)).state.form_unlocked_time = none :=
  ⟨rfl, rfl, rfl, rfl⟩

/-- C2 counterexample: with the gate started at time 0 and the script re-run at
time 1, `ready` is false (elapsed 1 < 3 seconds), yet a submitted flag reaching
the handler still packages a row and performs the append — the handler contains
no readiness re-check, so the submission is not rejected by the core. -/
theorem c2_not_ready_submission_appends :
    ready 1 (gateStart (some 0) 1) = false
    ∧ (trialBlock ⟨0, some 0, none⟩ 1 1 true inp0
        (fun _ => AppendOutcome.success)).appendedRow.isSome = true
    ∧ (trialBlock ⟨0, some 0, none⟩ 1 1 true inp0
        (fun _ => AppendOutcome.success)).appendOk = some true := by
  refine ⟨?_, rfl, rfl⟩
  simp only [ready, elapsed, gateStart, MIN_LISTEN_SECONDS,
    decide_eq_false_iff_not, not_le]
  norm_num

/-- C2 amended: whether the trial block appends depends only on the `submitted`
flag — the handler performs no readiness re-check of its own, and rejection of
not-ready submissions is delegated entirely to the UI's disabled submit button. -/
theorem c2_append_iff_submitted (s : SessionState) (nowR nowS : ℚ)
    (submitted : Bool) (inp : RowInputs) (outcomes : Nat → AppendOutcome) :
    (trialBlock s nowR nowS submitted inp outcomes).appendedRow.isSome
      = submitted := by
  cases submitted <;> rfl

/-- Attempt-outcome sequence used against C3: the first append raises a
non-`APIError` exception, any further attempt would succeed. -/
def outcomesC3 : Nat → AppendOutcome :=
  fun i => if i = 0 then AppendOutcome.otherError else AppendOutcome.success

/-- C3 counterexample: a non-`APIError` failure is not surfaced immediately —
with retry budget 2 the first (other-class) failure is followed by a 1-second
sleep and a second attempt, which succeeds; and with the default call's budget
of 1 even an `APIError` gets no retry at all (a single attempt, then `False`). -/
theorem c3_other_errors_are_retried :
    (append_row_with_retry outcomesC3 2).attempts = 2
    ∧ (append_row_with_retry outcomesC3 2).ok = true
    ∧ (append_row_with_retry outcomesC3 2).sleeps = [1]
    ∧ (append_row_with_retry (fun _ => AppendOutcome.apiError) 1).attempts = 1
    ∧ (append_row_with_retry (fun _ => AppendOutcome.apiError) 1).ok = false :=
  ⟨rfl, rfl, rfl, rfl, rfl⟩

/-- The retry loop makes at most `fuel` append attempts. -/
theorem retryGo_attempts_le (outcomes : Nat → AppendOutcome) :
    ∀ fuel i, (retryGo outcomes i fuel).attempts ≤ fuel := by
  intro fuel
  induction fuel with
  | zero => intro i; exact Nat.le_refl 0
  | succ n ih =>
    intro i
    rw [retryGo]
    match houtcome : outcomes i with
    | .success => exact Nat.succ_le_succ (Nat.zero_le n)
    | .apiError => exact Nat.succ_le_succ (ih (i + 1))
    | .otherError => exact Nat.succ_le_succ (ih (i + 1))

/-- When every attempt from index `i` on raises `APIError`, the loop runs all
`fuel` iterations, sleeping `2 ^ j` seconds after attempt `j`, and returns
`False`. -/
theorem retryGo_all_apiError (outcomes : Nat → AppendOutcome) :
    ∀ fuel i, (∀ j, i ≤ j → j < i + fuel → outcomes j = AppendOutcome.apiError) →
      retryGo outcomes i fuel
        = ⟨false, fuel, (List.range fuel).map (fun j => (2 : ℚ) ^ (i + j))⟩ := by
  intro fuel
  induction fuel with
  | zero => intro i _; rfl
  | succ n ih =>
    intro i hall
    have h0 : outcomes i = AppendOutcome.apiError :=
      hall i (Nat.le_refl i) (by omega)
    rw [retryGo, h0]
    rw [ih (i + 1) (fun j hj1 hj2 => hall j (by omega) (by omega))]
    refine congrArg (RetryResult.mk false (n + 1)) ?_
    rw [List.range_succ_eq_map, List.map_cons, List.map_map]
    refine congrArg₂ List.cons (by rw [Nat.add_zero]) ?_
    refine List.map_congr_left ?_
    intro j _
    simp only [Function.comp_apply]
    refine congrArg (fun e => (2 : ℚ) ^ e) ?_
    omega

/-- When every attempt from index `i` on raises a non-`APIError` exception, the
loop likewise runs all `fuel` iterations, sleeping 1 second after each, and
returns `False`. -/
theorem retryGo_all_otherError (outcomes : Nat → AppendOutcome) :
    ∀ fuel i, (∀ j, i ≤ j → j < i + fuel → outcomes j = AppendOutcome.otherError) →
      retryGo outcomes i fuel = ⟨false, fuel, List.replicate fuel 1⟩ := by
  intro fuel
  induction fuel with
  | zero => intro i _; rfl
  | succ n ih =>
    intro i hall
    have h0 : outcomes i = AppendOutcome.otherError :=
      hall i (Nat.le_refl i) (by omega)
    rw [retryGo, h0]
    rw [ih (i + 1) (fun j hj1 hj2 => hall j (by omega) (by omega))]
    rfl

/-- C3 amended: `append_row_with_retry` retries every failure class, not just
`APIError`, up to the `max_retries` budget: it makes at most `max_retries`
attempts; an all-`APIError` run makes exactly `max_retries` attempts with
doubling sleeps `2 ^ 0, 2 ^ 1, ...` and returns `False`; an all-other-exception
run makes exactly `max_retries` attempts with 1-second sleeps and returns
`False`. (The module's only call site uses the default budget of 1, a single
attempt with no retry for any class.) -/
theorem c3_retry_behavior (n : ℕ) (outcomes : Nat → AppendOutcome) :
    ((append_row_with_retry outcomes n).attempts ≤ n)
    ∧ ((∀ i, i < n → outcomes i = AppendOutcome.apiError) →
        append_row_with_retry outcomes n
          = ⟨false, n, (List.range n).map (fun i => (2 : ℚ) ^ i)⟩)
    ∧ ((∀ i, i < n → outcomes i = AppendOutcome.otherError) →
        append_row_with_retry outcomes n = ⟨false, n, List.replicate n 1⟩) := by
  refine ⟨retryGo_attempts_le outcomes n 0, ?_, ?_⟩
  · intro hall
    rw [append_row_with_retry,
      retryGo_all_apiError outcomes n 0 (fun j _ hj2 => hall j (by omega))]
    refine congrArg (RetryResult.mk false n) (List.map_congr_left ?_)
    intro j _
    rw [Nat.zero_add]
  · intro hall
    exact retryGo_all_otherError outcomes n 0 (fun j _ hj2 => hall j (by omega))

/-- Closed witness for `c3_retry_behavior` at budget 2 with all attempts
raising `APIError`: two attempts, sleeps 1 then 2 seconds, result `False`. -/
theorem c3_retry_behavior_witness :
    ((append_row_with_retry (fun _ => AppendOutcome.apiError) 2).attempts ≤ 2)
    ∧ append_row_with_retry (fun _ => AppendOutcome.apiError) 2
        = ⟨false, 2, [1, 2]⟩ := by
  have h := c3_retry_behavior 2 (fun _ => AppendOutcome.apiError)
  refine ⟨h.1, ?_⟩
  rw [h.2.1 (fun i _ => rfl)]
  norm_num [List.range_succ]

/-- C4 counterexample: the claimed schema — for each of the ten categories a
0/1 heard-flag column plus a satisfaction column, i.e. 8 header fields, 3
primary ratings, 20 per-category cells and reaction_time_ms, 32 columns —
does not match the code: the assembled row has 22 cells, with a single
combined cell per category; at the concrete input `inp0` (only "Wind"
selected, slider 0.7) the Wind cell (index 12) holds the satisfaction value
0.7 directly, with no separate 0/1 flag, and index 21 is the final cell. -/
theorem c4_single_cell_per_category :
    (buildRow inp0 0 1000).length = 22
    ∧ ¬(buildRow inp0 0 1000).length = 32
    ∧ (buildRow inp0 0 1000).getD 12 (Cell.str "") = Cell.num (7 / 10)
    ∧ (buildRow inp0 0 1000).getD 21 (Cell.str "") = Cell.num 1000 := by
  refine ⟨rfl, by decide, ?_, rfl⟩
  show Cell.num (heard inp0 "Wind") = Cell.num (7 / 10)
  rw [heard, ratingsDict, if_pos (by decide), if_pos (by decide)]
  rfl

/-- C4 amended: every appended row has exactly 22 cells in fixed order —
timestamp, participant_id, trial_index, stimulus_id, visual_ref, audio_ref,
age, gender, comfort, pleasantness, appropriateness, then ONE combined cell per
category in enumeration order (cells 11..20) holding the sentinel 9 when the
category is not selected and the satisfaction slider value when it is, and
reaction_time_ms as the last cell (index 21). -/
theorem c4_row_schema (inp : RowInputs) (i : ℕ) (rt : ℤ) :
    (buildRow inp i rt).length = 22
    ∧ (∀ k, k < 10 → (buildRow inp i rt).getD (11 + k) (Cell.str "")
        = Cell.num (heard inp (all_sound_types.getD k "")))
    ∧ (buildRow inp i rt).getD 21 (Cell.str "") = Cell.num (rt : ℚ)
    ∧ (∀ s, s ∉ inp.sound_types → heard inp s = 9)
    ∧ (∀ s, s ∈ inp.sound_types → heard inp s = inp.slider s) := by
  refine ⟨rfl, ?_, rfl, ?_, ?_⟩
  · intro k hk
    interval_cases k <;> rfl
  · intro s hs
    rw [heard, if_neg hs]
  · intro s hs
    rw [heard, ratingsDict, if_pos hs, if_pos hs, Option.getD_some]

/-- Closed witness for `c4_row_schema` at `inp0`, trial 5, reaction time 0:
cell 11 is the Birdsong cell, and the unselected category "Car" maps to the
sentinel 9. -/
theorem c4_row_schema_witness :
    (buildRow inp0 5 0).length = 22
    ∧ (buildRow inp0 5 0).getD (11 + 0) (Cell.str "")
        = Cell.num (heard inp0 (all_sound_types.getD 0 ""))
    ∧ heard inp0 "Car" = 9 := by
  have h := c4_row_schema inp0 5 0
  exact ⟨h.1, h.2.1 0 (by decide), h.2.2.2.1 "Car" (by decide)⟩

/-- C9: a category the participant did not select gets the sentinel value 9 in
its row cell — positionally, cell `11 + k` of the row — and that marker is
distinct from the numeric rating 0 (Python `9 != 0.0`). -/
theorem c9_unselected_is_marker_not_zero (inp : RowInputs) (i : ℕ) (rt : ℤ)
    (k : ℕ) (hk : k < 10)
    (hns : all_sound_types.getD k "" ∉ inp.sound_types) :
    (buildRow inp i rt).getD (11 + k) (Cell.str "") = Cell.num 9
    ∧ heard inp (all_sound_types.getD k "") = 9
    ∧ (9 : ℚ) ≠ 0 := by
  have hh : heard inp (all_sound_types.getD k "") = 9 := by
    rw [heard, if_neg hns]
  refine ⟨?_, hh, by norm_num⟩
  have hcell : (buildRow inp i rt).getD (11 + k) (Cell.str "")
      = Cell.num (heard inp (all_sound_types.getD k "")) := by
    interval_cases k <;> rfl
  rw [hcell, hh]

/-- Closed witness for `c9_unselected_is_marker_not_zero`: with only "Wind"
selected, the "Car" cell (k = 4, row index 15) is the sentinel 9. -/
theorem c9_unselected_witness :
    ((4 : ℕ) < 10 ∧ all_sound_types.getD 4 "" ∉ inp0.sound_types)
    ∧ ((buildRow inp0 0 0).getD (11 + 4) (Cell.str "") = Cell.num 9
        ∧ heard inp0 (all_sound_types.getD 4 "") = 9
        ∧ (9 : ℚ) ≠ 0) :=
  ⟨⟨by decide, by decide⟩,
   c9_unselected_is_marker_not_zero inp0 0 0 4 (by decide) (by decide)⟩

/-- C10: provided every satisfaction slider yields a value in [0, 1] (the
sliders are declared with `min_value=0.0, max_value=1.0`), each per-category
value is either the sentinel 9 (not selected) or the slider's value, a rational
in [0, 1]; and 9 lies outside [0, 1], so the not-selected encoding can never
collide with an achievable rating. -/
theorem c10_cell_is_sentinel_or_rating (inp : RowInputs)
    (hslider : ∀ s, 0 ≤ inp.slider s ∧ inp.slider s ≤ 1) (s : String) :
    (heard inp s = 9 ∨ (0 ≤ heard inp s ∧ heard inp s ≤ 1))
    ∧ ¬(0 ≤ (9 : ℚ) ∧ (9 : ℚ) ≤ 1) := by
  refine ⟨?_, by norm_num⟩
  by_cases hs : s ∈ inp.sound_types
  · right
    rw [heard, ratingsDict, if_pos hs, if_pos hs, Option.getD_some]
    exact hslider s
  · left
    rw [heard, if_neg hs]

/-- Closed witness for `c10_cell_is_sentinel_or_rating` at `inp0` (constant
slider 0.7), at the category "Wind". -/
theorem c10_cell_witness :
    (heard inp0 "Wind" = 9 ∨ (0 ≤ heard inp0 "Wind" ∧ heard inp0 "Wind" ≤ 1))
    ∧ ¬(0 ≤ (9 : ℚ) ∧ (9 : ℚ) ≤ 1) :=
  c10_cell_is_sentinel_or_rating inp0
    (fun s => ⟨by norm_num [inp0], by norm_num [inp0]⟩) "Wind"

/-- C8: if `shuffled` is any permutation of a duplicate-free catalog (the
postcondition of `random.shuffle`) and `k ≤ |catalog|`, then
`build_order shuffled k` has exactly `k` elements, is duplicate-free, draws
every element from the catalog, and is a prefix of the permutation `shuffled`;
when the catalog's stimulus ids are distinct, the selected ids are distinct
too. -/
theorem c8_build_order_take (catalog shuffled : List Stimulus) (k : ℕ)
    (hperm : shuffled.Perm catalog) (hnd : catalog.Nodup)
    (hk : k ≤ catalog.length) :
    (build_order shuffled k).length = k
    ∧ (build_order shuffled k).Nodup
    ∧ (∀ x, x ∈ build_order shuffled k → x ∈ catalog)
    ∧ build_order shuffled k <+: shuffled
    ∧ ((catalog.map Stimulus.id).Nodup →
        ((build_order shuffled k).map Stimulus.id).Nodup) := by
  have hlen : shuffled.length = catalog.length := hperm.length_eq
  have hnd2 : shuffled.Nodup := hperm.nodup_iff.mpr hnd
  refine ⟨?_, ?_, ?_, ?_, ?_⟩
  · rw [build_order, List.length_take]
    omega
  · exact List.Nodup.sublist (List.take_sublist k shuffled) hnd2
  · intro x hx
    exact hperm.mem_iff.mp (List.mem_of_mem_take hx)
  · exact ⟨shuffled.drop k, List.take_append_drop k shuffled⟩
  · intro hids
    have hids2 : (shuffled.map Stimulus.id).Nodup :=
      (hperm.map Stimulus.id).nodup_iff.mpr hids
    rw [build_order]
    exact List.Nodup.sublist
      ((List.take_sublist k shuffled).map Stimulus.id) hids2

/-- Closed witness for `c8_build_order_take`: catalog `STIMULI`, shuffle output
its reverse, `k = TRIALS_PER_PARTICIPANT`. -/
theorem c8_build_order_witness :
    (STIMULI.reverse.Perm STIMULI ∧ STIMULI.Nodup
      ∧ TRIALS_PER_PARTICIPANT ≤ STIMULI.length
      ∧ (STIMULI.map Stimulus.id).Nodup)
    ∧ ((build_order STIMULI.reverse TRIALS_PER_PARTICIPANT).length
        = TRIALS_PER_PARTICIPANT
      ∧ ((build_order STIMULI.reverse TRIALS_PER_PARTICIPANT).map
          Stimulus.id).Nodup) := by
  have h := c8_build_order_take STIMULI STIMULI.reverse TRIALS_PER_PARTICIPANT
    (List.reverse_perm STIMULI) (by decide) (by decide)
  exact ⟨⟨List.reverse_perm STIMULI, by decide, by decide, by decide⟩,
    h.1, h.2.2.2.2 (by decide)⟩

end UrbanApp
